import Mathlib

/-
Verification of the GoogleSearchingToTxts repository: a shallow embedding of
its variation generator, paginated search client, aggregator, enhanced-search
loop and result writer, together with theorems checking the natural-language
specification against this embedding.

Conventions of the embedding:
  * Python strings are Lean `String`s; the handful of Python string methods the
    code uses (`lower`, `strip`, `rstrip`, `split`, `title`, `endswith`,
    substring `in`, `replace`) are re-implemented below over `String.data`
    (lists of characters) so that everything reduces in the kernel.
  * The HTTP upstream is a parameter: a function from the page counter and the
    request body to an `UpstreamResult`, which is either a parsed response
    (status code, list of raw place records, optional continuation token) or
    an exception (`exn`, covering transport and JSON-parse failures).  The
    `time.sleep` calls and `print` statements of the source have no observable
    effect on the returned data and are not modelled.
  * `MAX_RESULTS` and `RESULTS_FOLDER` come from `config.py`, which is not part
    of the repository snapshot; the spec says they are externally supplied
    configuration, so they are ordinary parameters of the embedded functions.
-/

/-- Python `str.lower()` (ASCII-faithful, as used by the source). -/
def pyLower (s : String) : String :=
  String.mk (s.data.map Char.toLower)

/-- Python `str.strip()`: remove leading and trailing whitespace. -/
def pyStrip (s : String) : String :=
  String.mk (((s.data.dropWhile Char.isWhitespace).reverse.dropWhile Char.isWhitespace).reverse)

/-- Python `str.rstrip()`: remove trailing whitespace. -/
def pyRstrip (s : String) : String :=
  String.mk ((s.data.reverse.dropWhile Char.isWhitespace).reverse)

/-- Auxiliary scanner for `pySub`: does `needle` occur in the remaining text? -/
def pySubAux (needle : List Char) : List Char → Bool
  | [] => needle.isEmpty
  | c :: cs => needle.isPrefixOf (c :: cs) || pySubAux needle cs

/-- Python `needle in hay` on strings (substring containment). -/
def pySub (needle hay : String) : Bool :=
  pySubAux needle.data hay.data

/-- Python `str.endswith(t)`. -/
def pyEndsWith (s t : String) : Bool :=
  t.data.isSuffixOf s.data

/-- Auxiliary word accumulator for `pySplit` (current word is reversed). -/
def pySplitAux : List Char → List Char → List String
  | [], cur => if cur.isEmpty then [] else [String.mk cur.reverse]
  | c :: cs, cur =>
    if c.isWhitespace then
      if cur.isEmpty then pySplitAux cs [] else String.mk cur.reverse :: pySplitAux cs []
    else
      pySplitAux cs (c :: cur)

/-- Python `str.split()` with no argument: split on whitespace runs, dropping
empty fields. -/
def pySplit (s : String) : List String :=
  pySplitAux s.data []

/-- Auxiliary for `pyTitle`; the flag records whether the previous character
was alphabetic. -/
def pyTitleAux : Bool → List Char → List Char
  | _, [] => []
  | prevAlpha, c :: cs =>
    if c.isAlpha then
      (if prevAlpha then c.toLower else c.toUpper) :: pyTitleAux true cs
    else
      c :: pyTitleAux false cs

/-- Python `str.title()` (ASCII-faithful). -/
def pyTitle (s : String) : String :=
  String.mk (pyTitleAux false s.data)

/-- Auxiliary for `pyReplace`: left-to-right, non-overlapping replacement over
character lists. -/
def pyReplaceAux (pat repl : List Char) : List Char → List Char
  | [] => []
  | c :: cs =>
    if pat.isPrefixOf (c :: cs) then
      repl ++ pyReplaceAux pat repl (cs.drop (pat.length - 1))
    else
      c :: pyReplaceAux pat repl cs
termination_by l => l.length
decreasing_by
  · simp [List.length_drop]; omega
  · simp

/-- Python `str.replace(pat, repl)`. -/
def pyReplace (s pat repl : String) : String :=
  String.mk (pyReplaceAux pat.data repl.data s.data)

/-- Is the first character of the string an uppercase letter?  Models Python
`word[0].isupper()` (only used behind a length guard in the source). -/
def firstCharUpper (s : String) : Bool :=
  match s.data with
  | [] => false
  | c :: _ => c.isUpper

namespace VariationDetermination

/-- `self.textile_mill_terms` from `variation_determination.py`. -/
def textile_mill_terms : List String :=
  ["textile mill", "cotton mill", "yarn mill", "spinning mill",
   "fabric mill", "weaving mill", "spinning factory",
   "textile factory", "cotton spinning", "yarn manufacturing"]

/-- `self.restaurant_terms` from `variation_determination.py`. -/
def restaurant_terms : List String :=
  ["restaurant", "cafe", "diner", "bistro", "eatery", "food place"]

/-- `self.retail_terms` from `variation_determination.py`. -/
def retail_terms : List String :=
  ["store", "shop", "retail", "outlet", "market", "bazaar"]

/-- `VariationDetermination._is_textile_industry`. -/
def is_textile_industry (query : String) : Bool :=
  ["spinning", "mill", "textile", "cotton", "yarn", "fabric", "weaving"].any
    (fun keyword => pySub keyword (pyLower query))

/-- `VariationDetermination._is_restaurant_industry`. -/
def is_restaurant_industry (query : String) : Bool :=
  ["restaurant", "cafe", "food", "dining", "kitchen", "eatery"].any
    (fun keyword => pySub keyword (pyLower query))

/-- `VariationDetermination._is_retail_industry`. -/
def is_retail_industry (query : String) : Bool :=
  ["store", "shop", "retail", "market", "outlet", "bazaar"].any
    (fun keyword => pySub keyword (pyLower query))

/-- The location-indicator keyword list of `_extract_location`. -/
def location_keywords : List String :=
  ["downtown", "city center", "center", "district", "area", "zone",
   "mall", "plaza", "square", "market", "industrial area", "business district",
   "uptown", "midtown", "suburb", "neighborhood", "quarters", "sector"]

/-- The hardcoded business-word exclusion list of `_extract_location`. -/
def business_words : List String :=
  ["mill", "factory", "company", "business", "shop", "store",
   "restaurant", "cafe", "service", "center", "industry",
   "manufacturing", "textile", "cotton", "spinning", "fabric"]

/-- The capitalized-word fallback scan of `_extract_location`: walk the
lowercased words and the original-case words in lockstep; the first original
word longer than 2 characters that starts with an uppercase letter and whose
lowercased form is not a business word is returned with a leading space. -/
def scanWords : List String → List String → Option String
  | word :: words, original_word :: original_words =>
    if original_word.data.length > 2 ∧ firstCharUpper original_word = true ∧
        word ∉ business_words then
      some (" " ++ original_word)
    else
      scanWords words original_words
  | _, _ => none

/-- `VariationDetermination._extract_location`. -/
def extract_location (query : String) : String :=
  let query_lower := pyStrip (pyLower query)
  match location_keywords.find? (fun keyword => pySub keyword query_lower) with
  | some keyword => " " ++ pyTitle keyword
  | none =>
    match scanWords (pySplit query_lower) (pySplit query) with
    | some loc => loc
    | none => ""

/-- `VariationDetermination._generate_textile_variations`. -/
def generate_textile_variations (base_query : String) : List String :=
  textile_mill_terms.map (fun term => term ++ extract_location base_query)

/-- `VariationDetermination._generate_restaurant_variations`. -/
def generate_restaurant_variations (base_query : String) : List String :=
  restaurant_terms.map (fun term => term ++ extract_location base_query)

/-- `VariationDetermination._generate_retail_variations`. -/
def generate_retail_variations (base_query : String) : List String :=
  retail_terms.map (fun term => term ++ extract_location base_query)

/-- `VariationDetermination._generate_general_variations`. -/
def generate_general_variations (base_query : String) : List String :=
  (if pyEndsWith base_query "s" then [] else [base_query ++ "s"]) ++
    ["business", "company", "shop", "service", "center"].map
      (fun sfx => base_query ++ " " ++ sfx)

/-- The worker of `_remove_duplicates`; `seen` is the set of already-seen
lowercased, stripped keys (modelled as a list). -/
def removeDupAux : List String → List String → List String
  | [], _ => []
  | variation :: rest, seen =>
    let variation_lower := pyStrip (pyLower variation)
    if variation_lower ∈ seen then
      removeDupAux rest seen
    else
      variation :: removeDupAux rest (variation_lower :: seen)

/-- `VariationDetermination._remove_duplicates`: case-insensitive,
whitespace-stripped first-occurrence de-duplication. -/
def remove_duplicates (variations : List String) : List String :=
  removeDupAux variations []

/-- `VariationDetermination.generate_search_variations`. -/
def generate_search_variations (base_query : String) (max_variations : Nat := 6) :
    List String :=
  let variations := base_query ::
    (if is_textile_industry base_query then generate_textile_variations base_query
     else if is_restaurant_industry base_query then generate_restaurant_variations base_query
     else if is_retail_industry base_query then generate_retail_variations base_query
     else generate_general_variations base_query)
  (remove_duplicates variations).take max_variations

end VariationDetermination

/-- A raw place record as it appears in the parsed JSON response: the three
fields the field mask requests, each possibly absent.  The numeric rating is
opaque to the program (it is only ever formatted into text), so it is carried
as a string. -/
structure RawPlace where
  displayNameText : Option String
  formattedAddress : Option String
  rating : Option String
deriving DecidableEq, Repr

/-- A converted place record (`place_info` in the source): missing fields are
defaulted to the sentinel "N/A". -/
structure PlaceResult where
  name : String
  address : String
  rating : String
deriving DecidableEq, Repr

/-- The `place_info` conversion performed on every returned place record. -/
def placeInfo (place : RawPlace) : PlaceResult :=
  { name := place.displayNameText.getD "N/A"
    address := place.formattedAddress.getD "N/A"
    rating := place.rating.getD "N/A" }

/-- The request body built for each page (`request_body` in the source). -/
structure SearchRequest where
  textQuery : String
  maxResultCount : Nat
  pageToken : Option String
deriving DecidableEq, Repr

/-- Outcome of one HTTP call: either a parsed response carrying the status
code, the (possibly empty) `places` array and the optional `nextPageToken`,
or an exception (transport or parse failure). -/
inductive UpstreamResult
  | response (status : Nat) (places : List RawPlace) (nextPageToken : Option String)
  | exn
deriving DecidableEq, Repr

/-- Does this upstream outcome make the `try` block bail out (either the
`except` branch or the non-200 `break`)? -/
def isErrorResult : UpstreamResult → Bool
  | .exn => true
  | .response status _ _ => status != 200

namespace GooglePlacesAPI

/-- The inner `for place in places` loop shared by `search_places`,
`search_places_single` and `search_places_with_location`: append converted
records, breaking as soon as the result cap is reached. -/
def addPlaces (maxResults : Nat) : List PlaceResult → List RawPlace → List PlaceResult
  | acc, [] => acc
  | acc, place :: places =>
    if maxResults ≤ acc.length then acc
    else addPlaces maxResults (acc ++ [placeInfo place]) places

/-- The pagination `while` loop shared by `search_places` (fuel 8, cap
`MAX_RESULTS`) and `search_places_single` (fuel 3, cap 60).  `fuel` is the
number of page fetches still allowed (`max_pages - page_count`), so the
`page_count < max_pages` conjunct of the loop condition is `fuel > 0`; the
second component of the result is the final `page_count`.  The upstream is
consulted with the current page number and the request body. -/
def searchLoop (upstream : Nat → SearchRequest → UpstreamResult)
    (maxResults : Nat) (query : String) :
    Nat → List PlaceResult → Option String → Nat → List PlaceResult × Nat
  | 0, all_results, _, page_count => (all_results, page_count)
  | fuel + 1, all_results, next_page_token, page_count =>
    if all_results.length < maxResults then
      let page_count' := page_count + 1
      let request_body : SearchRequest :=
        { textQuery := query, maxResultCount := 20, pageToken := next_page_token }
      match upstream page_count' request_body with
      | .exn => (all_results, page_count')
      | .response status places token =>
        if status ≠ 200 then (all_results, page_count')
        else
          let all_results' := addPlaces maxResults all_results places
          match token with
          | none => (all_results', page_count')
          | some t =>
            searchLoop upstream maxResults query fuel all_results' (some t) page_count'
    else (all_results, page_count)

/-- `GooglePlacesAPI.search_places` together with its final page counter:
up to 8 pages, capped at the configured `MAX_RESULTS`. -/
def search_places_aux (upstream : Nat → SearchRequest → UpstreamResult)
    (MAX_RESULTS : Nat) (query : String) : List PlaceResult × Nat :=
  searchLoop upstream MAX_RESULTS query 8 [] none 0

/-- `GooglePlacesAPI.search_places`. -/
def search_places (upstream : Nat → SearchRequest → UpstreamResult)
    (MAX_RESULTS : Nat) (query : String) : List PlaceResult :=
  (search_places_aux upstream MAX_RESULTS query).1

/-- `GooglePlacesAPI.search_places_single` together with its final page
counter: up to 3 pages, capped at the hardcoded 60 results per variation. -/
def search_places_single_aux (upstream : Nat → SearchRequest → UpstreamResult)
    (query : String) : List PlaceResult × Nat :=
  searchLoop upstream 60 query 3 [] none 0

/-- `GooglePlacesAPI.search_places_single`. -/
def search_places_single (upstream : Nat → SearchRequest → UpstreamResult)
    (query : String) : List PlaceResult :=
  (search_places_single_aux upstream query).1

/-- The `mill_terms` list of `GooglePlacesAPI.generate_search_variations`. -/
def mill_terms : List String :=
  ["textile mill", "cotton mill", "yarn mill", "spinning mill",
   "fabric mill", "weaving mill", "spinning factory",
   "textile factory", "cotton spinning", "yarn manufacturing"]

/-- The exact (case-sensitive) first-occurrence de-duplication of
`GooglePlacesAPI.generate_search_variations` (`if var not in unique_variations`). -/
def exactDedup : List String → List String → List String
  | [], _ => []
  | var :: rest, seen =>
    if var ∈ seen then exactDedup rest seen
    else var :: exactDedup rest (var :: seen)

/-- `GooglePlacesAPI.generate_search_variations`: the variation generator the
Aggregator actually uses.  Note it differs from
`VariationDetermination.generate_search_variations`: only a spinning/mill
branch with three hardcoded locations, a general branch with three suffixes,
exact de-duplication, fixed cap 6. -/
def generate_search_variations (base_query : String) : List String :=
  let variations :=
    if pySub "spinning" (pyLower base_query) || pySub "mill" (pyLower base_query) then
      let location :=
        if pySub "pakistan" (pyLower base_query) then " Pakistan"
        else if pySub "karachi" (pyLower base_query) then " Karachi"
        else if pySub "lahore" (pyLower base_query) then " Lahore"
        else ""
      base_query :: mill_terms.map (fun term => term ++ location)
    else
      base_query ::
        ((if pyEndsWith base_query "s" then [] else [base_query ++ "s"]) ++
          [base_query ++ " business", base_query ++ " company", base_query ++ " shop"])
  (exactDedup variations []).take 6

/-- The `unique_id` built in `search_with_variations`:
`f"{name.lower().strip()} | {address.lower().strip()}"`. -/
def unique_id (result : PlaceResult) : String :=
  pyStrip (pyLower result.name) ++ " | " ++ pyStrip (pyLower result.address)

/-- The inner `for result in variation_results` loop of
`search_with_variations`: append only results whose `unique_id` has not been
seen.  Returns the updated accumulator and seen set (a list of keys). -/
def mergeResults : List PlaceResult → List String → List PlaceResult →
    List PlaceResult × List String
  | all_results, seen_names, [] => (all_results, seen_names)
  | all_results, seen_names, result :: rest =>
    let uid := unique_id result
    if uid ∈ seen_names then
      mergeResults all_results seen_names rest
    else
      mergeResults (all_results ++ [result]) (uid :: seen_names) rest

/-- The per-variation loop of `search_with_variations`, also recording (in
order) the variations it actually handed to the search client.  After merging
a variation's results it breaks once the accumulated count reaches
`MAX_RESULTS`. -/
def swvLoop (upstream : String → Nat → SearchRequest → UpstreamResult)
    (MAX_RESULTS : Nat) :
    List String → List PlaceResult → List String → List String →
    List PlaceResult × List String
  | [], all_results, _, invoked => (all_results, invoked.reverse)
  | variation :: rest, all_results, seen_names, invoked =>
    let variation_results := search_places_single (upstream variation) variation
    let merged := mergeResults all_results seen_names variation_results
    if MAX_RESULTS ≤ merged.1.length then (merged.1, (variation :: invoked).reverse)
    else swvLoop upstream MAX_RESULTS rest merged.1 merged.2 (variation :: invoked)

/-- `GooglePlacesAPI.search_with_variations` together with the list of
variations it invoked the search client on.  The result list is truncated to
`MAX_RESULTS` on return (`all_results[:MAX_RESULTS]`). -/
def search_with_variations_aux (upstream : String → Nat → SearchRequest → UpstreamResult)
    (MAX_RESULTS : Nat) (base_query : String) : List PlaceResult × List String :=
  let variations := generate_search_variations base_query
  let run := swvLoop upstream MAX_RESULTS variations [] [] []
  (run.1.take MAX_RESULTS, run.2)

/-- `GooglePlacesAPI.search_with_variations`. -/
def search_with_variations (upstream : String → Nat → SearchRequest → UpstreamResult)
    (MAX_RESULTS : Nat) (base_query : String) : List PlaceResult :=
  (search_with_variations_aux upstream MAX_RESULTS base_query).1

end GooglePlacesAPI

namespace MainEnhanced

/-- The module-level `generate_search_variations` of `main_enhanced.py`: six
fixed suffix variations, plus six Pakistani-city variations when the keyword
mentions Pakistan. -/
def generate_search_variations (keyword : String) : List String :=
  let base_variations :=
    [keyword, keyword ++ " company", keyword ++ " business", keyword ++ " factory",
     keyword ++ " industry", keyword ++ " manufacturing"]
  if pySub "pakistan" (pyLower keyword) then
    let base_keyword := pyStrip (pyReplace (pyReplace keyword "Pakistan" "") "pakistan" "")
    base_variations ++
      [base_keyword ++ " Karachi", base_keyword ++ " Lahore",
       base_keyword ++ " Faisalabad", base_keyword ++ " Rawalpindi",
       base_keyword ++ " Multan", base_keyword ++ " Peshawar"]
  else
    base_variations

/-- The `name_key` used for de-duplication inside `main_enhanced.main`:
`result['name'].lower().strip()` — the name alone, without the address. -/
def name_key (result : PlaceResult) : String :=
  pyStrip (pyLower result.name)

/-- The inner `for result in results` loop of the enhanced branch of
`main_enhanced.main`: append only results with an unseen `name_key`. -/
def addUniqueByName : List PlaceResult → List String → List PlaceResult →
    List PlaceResult × List String
  | all_results, seen_names, [] => (all_results, seen_names)
  | all_results, seen_names, result :: rest =>
    let key := name_key result
    if key ∈ seen_names then
      addUniqueByName all_results seen_names rest
    else
      addUniqueByName (all_results ++ [result]) (key :: seen_names) rest

/-- The per-query loop of the enhanced branch of `main_enhanced.main`: run
`search_places` for every variation and merge by `name_key`.  Note there is
no global-cap check anywhere in this loop. -/
def enhancedLoop (upstream : String → Nat → SearchRequest → UpstreamResult)
    (MAX_RESULTS : Nat) :
    List String → List PlaceResult → List String → List PlaceResult
  | [], all_results, _ => all_results
  | query :: rest, all_results, seen_names =>
    let results := GooglePlacesAPI.search_places (upstream query) MAX_RESULTS query
    let merged := addUniqueByName all_results seen_names results
    enhancedLoop upstream MAX_RESULTS rest merged.1 merged.2

/-- The enhanced branch of `main_enhanced.main` for one keyword: the
variation-driven aggregation performed when the user answers `y`. -/
def enhancedSearch (upstream : String → Nat → SearchRequest → UpstreamResult)
    (MAX_RESULTS : Nat) (keyword : String) : List PlaceResult :=
  enhancedLoop upstream MAX_RESULTS (generate_search_variations keyword) [] []

end MainEnhanced

namespace FileManager

/-- The `safe_keyword` filename sanitisation of
`FileManager.save_results_to_file`: keep alphanumeric characters, spaces,
hyphens and underscores, strip trailing whitespace, then replace spaces with
underscores. -/
def safe_keyword (keyword : String) : String :=
  String.mk
    ((pyRstrip (String.mk (keyword.data.filter
        (fun c => c.isAlphanum || c == ' ' || c == '-' || c == '_')))).data.map
      (fun c => if c == ' ' then '_' else c))

/-- The file path the writer targets:
`os.path.join(RESULTS_FOLDER, f"{safe_keyword}_{timestamp}.txt")`. -/
def filePathOf (RESULTS_FOLDER keyword timestamp : String) : String :=
  RESULTS_FOLDER ++ "/" ++ (safe_keyword keyword ++ "_" ++ timestamp ++ ".txt")

/-- One result block of the output file (enumerate starts at 1; a blank line
separates blocks except after the last). -/
def resultBlocks (total : Nat) : Nat → List PlaceResult → String
  | _, [] => ""
  | i, result :: rest =>
    "Name: " ++ result.name ++ "\n" ++
    "Address: " ++ result.address ++ "\n" ++
    "Rating: " ++ result.rating ++ "\n" ++
    (if i < total then "\n" else "") ++
    resultBlocks total (i + 1) rest

/-- The full text written to the output file: header (keyword, count,
generation time, separator) followed by the result blocks. -/
def fileContentOf (keyword now : String) (results : List PlaceResult) : String :=
  "Search Results for: " ++ keyword ++ "\n" ++
  "Total Results: " ++ toString results.length ++ "\n" ++
  "Generated on: " ++ now ++ "\n" ++
  String.mk (List.replicate 50 '=') ++ "\n\n" ++
  resultBlocks results.length 1 results

/-- `FileManager.save_results_to_file`.  The filesystem write is the effectful
part: it is passed in as `writer` (file path and content to outcome), with
`Except` standing for a raised exception.  On success the file path is
returned; the surrounding `try`/`except` turns any exception into `none`. -/
def save_results_to_file (writer : String → String → Except String Unit)
    (RESULTS_FOLDER keyword : String) (results : List PlaceResult)
    (timestamp now : String) : Option String :=
  let filepath := filePathOf RESULTS_FOLDER keyword timestamp
  match writer filepath (fileContentOf keyword now results) with
  | .ok _ => some filepath
  | .error _ => none

end FileManager

/-- An upstream that answers every request of every variation with a
successful but empty page and no continuation token. -/
def emptyUpstream : String → Nat → SearchRequest → UpstreamResult :=
  fun _ _ _ => .response 200 [] none

/-- An upstream that answers the query `q` with a single one-page result whose
name is `q` itself — every distinct query yields one fresh place. -/
def oneResultPerQuery : String → Nat → SearchRequest → UpstreamResult :=
  fun q _ _ => .response 200 [{ displayNameText := some q,
                                formattedAddress := some "addr",
                                rating := none }] none

/-- A raw place used to exhibit duplicate records inside one page. -/
def dupRaw : RawPlace :=
  { displayNameText := some "Dup Place", formattedAddress := some "1 Main St",
    rating := some "4.5" }

/-- An upstream whose first page contains the same place twice and no
continuation token. -/
def dupUpstream : Nat → SearchRequest → UpstreamResult :=
  fun _ _ => .response 200 [dupRaw, dupRaw] none

/-! ### Helper lemmas -/

/-- The pagination loop fetches at most `fuel` further pages: its final page
counter is bounded by the starting counter plus the remaining fuel. -/
theorem searchLoop_pages_le (upstream : Nat → SearchRequest → UpstreamResult)
    (maxResults : Nat) (query : String) :
    ∀ (fuel : Nat) (acc : List PlaceResult) (tok : Option String) (pc : Nat),
      (GooglePlacesAPI.searchLoop upstream maxResults query fuel acc tok pc).2 ≤ pc + fuel := by
  intro fuel
  induction fuel with
  | zero =>
    intro acc tok pc
    simp [GooglePlacesAPI.searchLoop]
  | succ n ih =>
    intro acc tok pc
    simp only [GooglePlacesAPI.searchLoop]
    split
    · split
      · simp
      · split
        · simp
        · split
          · simp
          · exact le_trans (ih _ _ _) (by omega)
    · simp

/-- If the upstream fails (exception or non-200 status) on the next page to be
fetched, the pagination loop returns the accumulated results unchanged. -/
theorem searchLoop_error_stops (upstream : Nat → SearchRequest → UpstreamResult)
    (maxResults : Nat) (query : String) (fuel : Nat) (acc : List PlaceResult)
    (tok : Option String) (pc : Nat) (hlen : acc.length < maxResults)
    (herr : ∀ req, isErrorResult (upstream (pc + 1) req) = true) :
    GooglePlacesAPI.searchLoop upstream maxResults query (fuel + 1) acc tok pc = (acc, pc + 1) := by
  simp only [GooglePlacesAPI.searchLoop, if_pos hlen]
  have h := herr { textQuery := query, maxResultCount := 20, pageToken := tok }
  split
  · rfl
  · next status places token heq =>
    rw [heq] at h
    simp only [isErrorResult, ne_eq, bne_iff_ne] at h
    rw [if_pos h]

/-- The merge step of the Aggregator preserves its de-duplication invariant:
if the accumulated results have pairwise-distinct identity keys and every key
is recorded in `seen`, the same holds after merging a variation's results. -/
theorem mergeResults_inv (rs : List PlaceResult) :
    ∀ (all : List PlaceResult) (seen : List String),
      (all.map GooglePlacesAPI.unique_id).Nodup →
      (∀ r ∈ all, GooglePlacesAPI.unique_id r ∈ seen) →
      ((GooglePlacesAPI.mergeResults all seen rs).1.map GooglePlacesAPI.unique_id).Nodup ∧
      ∀ r ∈ (GooglePlacesAPI.mergeResults all seen rs).1,
        GooglePlacesAPI.unique_id r ∈ (GooglePlacesAPI.mergeResults all seen rs).2 := by
  induction rs with
  | nil =>
    intro all seen h1 h2
    exact ⟨h1, h2⟩
  | cons r rest ih =>
    intro all seen h1 h2
    simp only [GooglePlacesAPI.mergeResults]
    split
    · exact ih all seen h1 h2
    · next hnot =>
      apply ih
      · rw [List.map_append]
        rw [List.nodup_append]
        refine ⟨h1, List.nodup_singleton _, ?_⟩
        intro u hu hu'
        simp only [List.map_cons, List.map_nil, List.mem_singleton] at hu'
        subst hu'
        obtain ⟨r', hr', he⟩ := List.mem_map.mp hu
        exact hnot (he ▸ h2 r' hr')
      · intro r' hr'
        rcases List.mem_append.mp hr' with h | h
        · exact List.mem_cons_of_mem _ (h2 r' h)
        · simp only [List.mem_singleton] at h
          subst h
          exact List.mem_cons_self _ _

/-- The per-variation loop of the Aggregator preserves distinctness of the
identity keys of the accumulated results. -/
theorem swvLoop_nodup (upstream : String → Nat → SearchRequest → UpstreamResult)
    (M : Nat) :
    ∀ (vs : List String) (all : List PlaceResult) (seen inv : List String),
      (all.map GooglePlacesAPI.unique_id).Nodup →
      (∀ r ∈ all, GooglePlacesAPI.unique_id r ∈ seen) →
      ((GooglePlacesAPI.swvLoop upstream M vs all seen inv).1.map
        GooglePlacesAPI.unique_id).Nodup := by
  intro vs
  induction vs with
  | nil =>
    intro all seen inv h1 h2
    simpa [GooglePlacesAPI.swvLoop] using h1
  | cons v rest ih =>
    intro all seen inv h1 h2
    simp only [GooglePlacesAPI.swvLoop]
    split
    · exact (mergeResults_inv _ all seen h1 h2).1
    · exact ih _ _ _ (mergeResults_inv _ all seen h1 h2).1 (mergeResults_inv _ all seen h1 h2).2

/-- The variations the Aggregator's loop hands to the search client always
form an initial segment of the variation list it was given. -/
theorem swvLoop_invoked_take (upstream : String → Nat → SearchRequest → UpstreamResult)
    (M : Nat) :
    ∀ (vs : List String) (all : List PlaceResult) (seen inv : List String),
      ∃ n, (GooglePlacesAPI.swvLoop upstream M vs all seen inv).2 = inv.reverse ++ vs.take n := by
  intro vs
  induction vs with
  | nil =>
    intro all seen inv
    exact ⟨0, by simp [GooglePlacesAPI.swvLoop]⟩
  | cons v rest ih =>
    intro all seen inv
    simp only [GooglePlacesAPI.swvLoop]
    split
    · exact ⟨1, by simp⟩
    · obtain ⟨n, hn⟩ := ih _ _ (v :: inv)
      exact ⟨n + 1, by rw [hn]; simp⟩

/-- With an upstream that always answers an empty page, each single-variation
search returns nothing. -/
theorem search_places_single_empty (v : String) :
    GooglePlacesAPI.search_places_single (emptyUpstream v) v = [] := rfl

/-- With an upstream that always answers an empty page and a positive cap, the
Aggregator's loop never stops early, so it invokes the client on every
variation. -/
theorem swvLoop_empty_invoked (M : Nat) (hM : 1 ≤ M) :
    ∀ (vs inv : List String),
      GooglePlacesAPI.swvLoop emptyUpstream M vs [] [] inv = ([], inv.reverse ++ vs) := by
  intro vs
  induction vs with
  | nil =>
    intro inv
    simp [GooglePlacesAPI.swvLoop]
  | cons v rest ih =>
    intro inv
    simp only [GooglePlacesAPI.swvLoop, search_places_single_empty]
    simp only [GooglePlacesAPI.mergeResults]
    rw [if_neg (by simp; omega)]
    rw [ih (v :: inv)]
    simp

/-- Case-insensitive de-duplication keeps the head of the list. -/
theorem remove_duplicates_cons (b : String) (l : List String) :
    VariationDetermination.remove_duplicates (b :: l) =
      b :: VariationDetermination.removeDupAux l [pyStrip (pyLower b)] := by
  simp [VariationDetermination.remove_duplicates, VariationDetermination.removeDupAux]

/-! ### Claim theorems -/

/-- Claim C1 counterexample: the variation-driven aggregation of
`main_enhanced.main` (enhanced branch) enforces no global cap.  With the
configured cap set to 1 and an upstream that returns one fresh place per
query, the run for keyword "a" returns 6 results — more than the cap. -/
theorem enhanced_aggregation_exceeds_cap :
    1 < (MainEnhanced.enhancedSearch oneResultPerQuery 1 "a").length := by decide

/-- Claim C1 (amended): the Aggregator `GooglePlacesAPI.search_with_variations`
returns at most `MAX_RESULTS` results, and no two of its results share the
same lowercased, trimmed name+address identity key — for every upstream, every
configured cap and every base query. -/
theorem aggregator_cap_and_nodup (upstream : String → Nat → SearchRequest → UpstreamResult)
    (MAX_RESULTS : Nat) (base_query : String) :
    (GooglePlacesAPI.search_with_variations upstream MAX_RESULTS base_query).length ≤
      MAX_RESULTS ∧
    ((GooglePlacesAPI.search_with_variations upstream MAX_RESULTS base_query).map
      GooglePlacesAPI.unique_id).Nodup := by
  have h := swvLoop_nodup upstream MAX_RESULTS
    (GooglePlacesAPI.generate_search_variations base_query) [] [] [] (by simp) (by simp)
  exact ⟨List.length_take_le _ _,
    List.Nodup.sublist (List.Sublist.map _ (List.take_sublist _ _)) h⟩

/-- Claim C2 counterexample: the variation list the Aggregator actually
iterates over for the base query "cafe" (here run to completion against an
upstream with no results, so no early stop occurs) is not the output of
`VariationDetermination.generate_search_variations`. -/
theorem aggregator_variations_differ :
    (GooglePlacesAPI.search_with_variations_aux emptyUpstream 150 "cafe").2 ≠
      VariationDetermination.generate_search_variations "cafe" 6 := by decide

/-- Claim C2 (amended): the variations the Aggregator hands to the Search
Client always form an initial segment of
`GooglePlacesAPI.generate_search_variations base_query` — the generator
defined next to it in `google_places_api.py`, not the one in
`variation_determination.py` — and when the global cap is never reached
(e.g. the upstream returns no results and the cap is positive) they are
exactly that list. -/
theorem aggregator_iterates_gp_variations :
    (∀ (upstream : String → Nat → SearchRequest → UpstreamResult)
        (MAX_RESULTS : Nat) (base_query : String),
      ∃ n, (GooglePlacesAPI.search_with_variations_aux upstream MAX_RESULTS base_query).2 =
        (GooglePlacesAPI.generate_search_variations base_query).take n) ∧
    ∀ (MAX_RESULTS : Nat) (base_query : String), 1 ≤ MAX_RESULTS →
      (GooglePlacesAPI.search_with_variations_aux emptyUpstream MAX_RESULTS base_query).2 =
        GooglePlacesAPI.generate_search_variations base_query := by
  constructor
  · intro upstream M base_query
    obtain ⟨n, hn⟩ := swvLoop_invoked_take upstream M
      (GooglePlacesAPI.generate_search_variations base_query) [] [] []
    exact ⟨n, by simpa using hn⟩
  · intro M base_query hM
    have h := swvLoop_empty_invoked M hM
      (GooglePlacesAPI.generate_search_variations base_query) []
    simp [GooglePlacesAPI.search_with_variations_aux, h]

/-- Witness for C2's amended theorem at a concrete input. -/
theorem aggregator_iterates_gp_variations_witness :
    (GooglePlacesAPI.search_with_variations_aux emptyUpstream 150 "consultant").2 =
      GooglePlacesAPI.generate_search_variations "consultant" :=
  aggregator_iterates_gp_variations.2 150 "consultant" (by decide)

/-- Claim C3 counterexample: with `max_variations = 0` (unvalidated in the
source) the returned list is empty, so its first element is not the base
query. -/
theorem variations_zero_cap_no_head :
    (VariationDetermination.generate_search_variations "textile" 0).head? ≠
      some "textile" := by decide

/-- Claim C3 (amended): for every base query and every positive
`max_variations`, `VariationDetermination.generate_search_variations` returns
a list whose first element is the base query and whose length is at most
`max_variations`. -/
theorem variations_head_and_length (base_query : String) (max_variations : Nat)
    (h : 1 ≤ max_variations) :
    (VariationDetermination.generate_search_variations base_query max_variations).head? =
      some base_query ∧
    (VariationDetermination.generate_search_variations base_query max_variations).length ≤
      max_variations := by
  obtain ⟨k, rfl⟩ : ∃ k, max_variations = k + 1 := ⟨max_variations - 1, by omega⟩
  exact ⟨rfl, List.length_take_le _ _⟩

/-- Witness for C3's amended theorem at a concrete input. -/
theorem variations_head_and_length_witness :
    (VariationDetermination.generate_search_variations "consultant" 6).head? =
      some "consultant" ∧
    (VariationDetermination.generate_search_variations "consultant" 6).length ≤ 6 :=
  variations_head_and_length "consultant" 6 (by decide)

/-- Claim C4: for every upstream response sequence — including one where every
response carries a continuation token — the pagination loop fetches at most
`max_pages` pages: 8 for `search_places`, 3 for `search_places_single`.  (The
loops are total functions of the embedding, so termination is inherent.) -/
theorem search_pagination_bounded (u u' : Nat → SearchRequest → UpstreamResult)
    (MAX_RESULTS : Nat) (q q' : String) :
    (GooglePlacesAPI.search_places_aux u MAX_RESULTS q).2 ≤ 8 ∧
    (GooglePlacesAPI.search_places_single_aux u' q').2 ≤ 3 :=
  ⟨searchLoop_pages_le u MAX_RESULTS q 8 [] none 0,
   searchLoop_pages_le u' 60 q' 3 [] none 0⟩

/-- Claim C5: on a non-success HTTP status or an exception, the pagination
loop stops at that page and returns the results accumulated so far (the
embedding is a total function, so nothing is raised); in particular an HTTP
500 on the first page makes `search_places` return the empty list. -/
theorem search_error_fail_soft :
    (∀ (upstream : Nat → SearchRequest → UpstreamResult) (maxResults : Nat)
        (query : String) (fuel : Nat) (acc : List PlaceResult)
        (tok : Option String) (pc : Nat),
      acc.length < maxResults →
      (∀ req, isErrorResult (upstream (pc + 1) req) = true) →
      GooglePlacesAPI.searchLoop upstream maxResults query (fuel + 1) acc tok pc =
        (acc, pc + 1)) ∧
    ∀ (places : List RawPlace) (tok : Option String) (MAX_RESULTS : Nat) (query : String),
      GooglePlacesAPI.search_places (fun _ _ => .response 500 places tok)
        MAX_RESULTS query = [] := by
  constructor
  · intro upstream maxResults query fuel acc tok pc h1 h2
    exact searchLoop_error_stops upstream maxResults query fuel acc tok pc h1 h2
  · intro places tok MAX_RESULTS query
    rcases Nat.eq_zero_or_pos MAX_RESULTS with hm | hm
    · subst hm; rfl
    · have h := searchLoop_error_stops (fun _ _ => .response 500 places tok)
        MAX_RESULTS query 7 [] none 0 (by simpa using hm) (fun _ => rfl)
      unfold GooglePlacesAPI.search_places GooglePlacesAPI.search_places_aux
      rw [show (8 : Nat) = 7 + 1 from rfl, h]

/-- Witness for C5 at concrete inputs: an immediate exception, and an HTTP 500
on the first page. -/
theorem search_error_fail_soft_witness :
    GooglePlacesAPI.searchLoop (fun _ _ => UpstreamResult.exn) 150 "hotel" 8 [] none 0 =
      ([], 1) ∧
    GooglePlacesAPI.search_places (fun _ _ => .response 500 [] none) 150 "hotel" = [] :=
  ⟨search_error_fail_soft.1 _ 150 "hotel" 7 [] none 0 (by decide) (fun _ => rfl),
   search_error_fail_soft.2 [] none 150 "hotel"⟩

/-- Claim C6 counterexample: the variation list actually used by an enhanced
search (the Aggregator, here run for keyword "consultant" against an upstream
with no results so that no early stop occurs) is not the six-element list the
spec describes — the generator wired to the Aggregator has no "service"
suffix and produces only five variations. -/
theorem enhanced_consultant_not_spec_list :
    (GooglePlacesAPI.search_with_variations_aux emptyUpstream 150 "consultant").2 ≠
      ["consultant", "consultants", "consultant business", "consultant company",
       "consultant shop", "consultant service"] := by decide

/-- Claim C6 (amended): `VariationDetermination.generate_search_variations`
on "consultant" yields exactly the six-entry list of the spec, capped at 6
with the "center" suffix dropped; but the generator the enhanced search
actually uses, `GooglePlacesAPI.generate_search_variations`, yields only five
entries (suffixes business/company/shop, no service/center). -/
theorem consultant_variation_lists :
    VariationDetermination.generate_search_variations "consultant" 6 =
      ["consultant", "consultants", "consultant business", "consultant company",
       "consultant shop", "consultant service"] ∧
    GooglePlacesAPI.generate_search_variations "consultant" =
      ["consultant", "consultants", "consultant business", "consultant company",
       "consultant shop"] := by decide

/-- Claim C7: `_extract_location` returns " Chicago" (capitalized-word
fallback, leading space) for "spinning mill Chicago", and the empty string for
"textile business" (no location keyword, no capitalized word). -/
theorem extract_location_examples :
    VariationDetermination.extract_location "spinning mill Chicago" = " Chicago" ∧
    VariationDetermination.extract_location "textile business" = "" := by decide

/-- Claim C8: the Result Writer returns the written file's path when the
write succeeds, and `none` (the caught-exception failure signal) when the
write raises, for every folder, keyword, result list and timestamp. -/
theorem save_results_ok_or_failure (writer : String → String → Except String Unit)
    (RESULTS_FOLDER keyword : String) (results : List PlaceResult)
    (timestamp now : String) :
    (writer (FileManager.filePathOf RESULTS_FOLDER keyword timestamp)
        (FileManager.fileContentOf keyword now results) = .ok () →
      FileManager.save_results_to_file writer RESULTS_FOLDER keyword results timestamp now =
        some (FileManager.filePathOf RESULTS_FOLDER keyword timestamp)) ∧
    ∀ e, writer (FileManager.filePathOf RESULTS_FOLDER keyword timestamp)
        (FileManager.fileContentOf keyword now results) = .error e →
      FileManager.save_results_to_file writer RESULTS_FOLDER keyword results timestamp now =
        none := by
  constructor
  · intro h
    simp only [FileManager.save_results_to_file, h]
  · intro e h
    simp only [FileManager.save_results_to_file, h]

/-- Witness for C8: a writer that succeeds yields the path, a writer that
raises yields `none`. -/
theorem save_results_witness :
    FileManager.save_results_to_file (fun _ _ => Except.ok ()) "results" "mill shop" []
        "20250101_000000" "2025-01-01 00:00:00" =
      some (FileManager.filePathOf "results" "mill shop" "20250101_000000") ∧
    FileManager.save_results_to_file (fun _ _ => Except.error "disk full") "results"
        "mill shop" [] "20250101_000000" "2025-01-01 00:00:00" = none :=
  ⟨(save_results_ok_or_failure (fun _ _ => Except.ok ()) "results" "mill shop" []
      "20250101_000000" "2025-01-01 00:00:00").1 rfl,
   (save_results_ok_or_failure (fun _ _ => Except.error "disk full") "results" "mill shop" []
      "20250101_000000" "2025-01-01 00:00:00").2 "disk full" rfl⟩

/-- Claim C9 counterexample: "mill" does not in fact occur inside "Hamilton",
so for the claim's example query "Hamilton restaurant" the classifier selects
the restaurant category, not textile. -/
theorem hamilton_restaurant_not_textile :
    VariationDetermination.is_textile_industry "Hamilton restaurant" = false ∧
    VariationDetermination.generate_search_variations "Hamilton restaurant" 6 =
      ["Hamilton restaurant", "restaurant Hamilton", "cafe Hamilton", "diner Hamilton",
       "bistro Hamilton", "eatery Hamilton"] := by decide

/-- Claim C9 (amended): industry classification is substring containment on
the lowercased query, so a textile keyword occurring only inside a longer
word — "mill" inside "Millbrook" — makes the textile category win over the
restaurant keyword that is also present. -/
theorem substring_classification_prefers_textile :
    VariationDetermination.is_textile_industry "Millbrook restaurant" = true ∧
    VariationDetermination.is_restaurant_industry "Millbrook restaurant" = true ∧
    VariationDetermination.generate_search_variations "Millbrook restaurant" 6 =
      ["Millbrook restaurant", "textile mill Millbrook", "cotton mill Millbrook",
       "yarn mill Millbrook", "spinning mill Millbrook", "fabric mill Millbrook"] := by decide

/-- Claim C10: `search_places` performs no identity-based de-duplication: an
upstream page holding the same place twice makes it return that place twice,
so two returned results share the same lowercased, trimmed name+address
identity key (for any cap of at least 2). -/
theorem search_places_no_dedup (MAX_RESULTS : Nat) (q : String) (h : 2 ≤ MAX_RESULTS) :
    GooglePlacesAPI.search_places dupUpstream MAX_RESULTS q =
      [placeInfo dupRaw, placeInfo dupRaw] ∧
    ¬ ((GooglePlacesAPI.search_places dupUpstream MAX_RESULTS q).map
        GooglePlacesAPI.unique_id).Nodup := by
  obtain ⟨k, rfl⟩ : ∃ k, MAX_RESULTS = k + 2 := ⟨MAX_RESULTS - 2, by omega⟩
  refine ⟨rfl, ?_⟩
  rw [show GooglePlacesAPI.search_places dupUpstream (k + 2) q =
    [placeInfo dupRaw, placeInfo dupRaw] from rfl]
  decide

/-- Witness for C10 at a concrete cap and query. -/
theorem search_places_no_dedup_witness :
    GooglePlacesAPI.search_places dupUpstream 2 "hotel" =
      [placeInfo dupRaw, placeInfo dupRaw] ∧
    ¬ ((GooglePlacesAPI.search_places dupUpstream 2 "hotel").map
        GooglePlacesAPI.unique_id).Nodup :=
  search_places_no_dedup 2 "hotel" (by decide)
